import Mathlib

/-!
Shallow embedding of the RAG pipeline of `app/rag` (embeddings.py,
pipeline.py, vector_store.py), with theorems settling the frozen claims
about chunking, structured-output parsing, grading, retrieval degradation,
fallback generation, the document-store upsert, source listing, and the
in-memory fallback collection.

Python strings are modelled as `String` (slices operate on the `List Char`
of code points), Python floats as `ℚ`, Python ints as `Int`, Python dicts
as insertion-ordered association lists, and a raised exception that a
function does not catch as the `none` of an `Option` result.  The two
external library calls the pipeline makes — `json.loads` and `float(str)`
— are uninterpreted parameters (`loads`, `sfloat`): every theorem about
them either holds for all their behaviours or pins only the values the
concrete input needs.
-/

/-! ## Python slicing helpers -/

/-- Normalise one bound of a Python slice `t[a:b]` for a list of length
`len`: a negative index counts from the end (clamped at 0), a nonnegative
one is clamped at `len`. -/
def pyNormIdx (len : Nat) (i : Int) : Nat :=
  if i < 0 then ((len : Int) + i).toNat else min i.toNat len

/-- Python slice `t[a:b]` with `Int` bounds (as in `text[start:end]` of
`chunk_text`). -/
def pySlice (t : List Char) (a b : Int) : List Char :=
  (t.take (pyNormIdx t.length b)).drop (pyNormIdx t.length a)

/-- Python slice `s[:n]` on a string, by code points (as in the `[:500]`,
`[:300]`, `[:200]` truncations of pipeline.py). -/
def pyTake (n : Nat) (s : String) : String :=
  String.mk (s.data.take n)

/-! ## chunk_text (embeddings.py lines 62-82)

The loop body is

    while start < len(text):
        end = min(start + chunk_size, len(text))
        chunks.append(text[start:end])
        start = end - overlap

embedded with explicit fuel: `none` means the loop was still running when
the fuel ran out, so `(∀ fuel, … = none)` states that the loop never
terminates. -/

/-- One-loop-at-a-time embedding of the `while` loop of `chunk_text`,
with `start` carried explicitly and fuel bounding the number of
iterations. -/
def chunkLoop (text : List Char) (chunk_size overlap : Int) :
    Int → Nat → Option (List (List Char))
  | _, 0 => none
  | start, fuel + 1 =>
    if start < (text.length : Int) then
      let e : Int := min (start + chunk_size) (text.length : Int)
      match chunkLoop text chunk_size overlap (e - overlap) fuel with
      | some rest => some (pySlice text start e :: rest)
      | none => none
    else
      some []

/-- `EmbeddingService.chunk_text(text, chunk_size, overlap)`: run the loop
from `start = 0`; `some chunks` is a normal return, `none` means the given
fuel did not suffice. -/
def chunk_text (text : String) (chunk_size overlap : Int) (fuel : Nat) :
    Option (List String) :=
  (chunkLoop text.data chunk_size overlap 0 fuel).map (fun l => l.map String.mk)

/-- If `overlap ≥ 1` or `overlap ≥ chunk_size`, the loop guard
`start < len` is invariant: from any in-range window start the loop never
exits.  (`end ≤ len` gives the next start `≤ len - overlap < len` when
`overlap ≥ 1`; `end ≤ start + chunk_size` gives the next start `≤ start`
when `overlap ≥ chunk_size`.) -/
theorem chunkLoop_stuck (text : List Char) (chunk_size overlap : Int)
    (hov : 1 ≤ overlap ∨ chunk_size ≤ overlap) :
    ∀ (fuel : Nat) (start : Int), start < (text.length : Int) →
      chunkLoop text chunk_size overlap start fuel = none := by
  intro fuel
  induction fuel with
  | zero => intro start _; rfl
  | succ f ih =>
    intro start hstart
    have hnext : min (start + chunk_size) (text.length : Int) - overlap <
        (text.length : Int) := by
      rcases hov with h1 | h2
      · have hmin : min (start + chunk_size) (text.length : Int) ≤
            (text.length : Int) := min_le_right _ _
        omega
      · have hmin : min (start + chunk_size) (text.length : Int) ≤
            start + chunk_size := min_le_left _ _
        omega
    have hrec := ih (min (start + chunk_size) (text.length : Int) - overlap) hnext
    simp only [chunkLoop, if_pos hstart]
    rw [hrec]

/-- C1: the spec asserts that for `0 < overlap < chunk_size` the chunker
terminates and its chunks cover the text.  The code does not terminate on
any nonempty text: once the window reaches the end, `start` is reset to
`len - overlap < len` forever.  Witnessed here at `text = "ab"`,
`chunk_size = 5`, `overlap = 2` (which satisfy `0 < overlap < chunk_size`):
no amount of fuel makes the loop return. -/
theorem chunk_text_c1_diverges :
    ∀ fuel : Nat, chunk_text "ab" 5 2 fuel = none := by
  intro fuel
  have h := chunkLoop_stuck ("ab").data 5 2 (Or.inl (by norm_num)) fuel 0
    (by norm_num)
  simp [chunk_text, h]

/-- C2: the spec requires `overlap ≥ chunk_size` to be rejected with an
`InvalidArgument` error "rather than looping forever".  The code performs
no validation at all and loops forever: at `text = "ab"`, `chunk_size = 3`,
`overlap = 3` the loop never returns (and no error value exists anywhere in
`chunk_text`). -/
theorem chunk_text_c2_diverges :
    ∀ fuel : Nat, chunk_text "ab" 3 3 fuel = none := by
  intro fuel
  have h := chunkLoop_stuck ("ab").data 3 3 (Or.inr (by norm_num)) fuel 0
    (by norm_num)
  simp [chunk_text, h]

/-! ## Python values and JSON extraction (pipeline.py lines 277-299)

`json.loads` returns an arbitrary Python value; the pipeline then branches
on truthiness, `dict.get`, `isinstance(…, str)` and `float(…)`.  `PyVal`
covers the value shapes `json.loads` can produce. -/

/-- A Python value as returned by `json.loads`: `None`, a bool, a number
(int and float together, as `ℚ`), a string, a list, or a dict with string
keys (insertion-ordered association list). -/
inductive PyVal where
  | none : PyVal
  | bool : Bool → PyVal
  | num : ℚ → PyVal
  | str : String → PyVal
  | list : List PyVal → PyVal
  | dict : List (String × PyVal) → PyVal
deriving Repr

/-- Python truthiness: `None`, `False`, `0`, `""`, `[]`, and the empty dict
are falsy (used by the `or {}` on pipeline.py line 349). -/
def pyTruthy : PyVal → Bool
  | .none => false
  | .bool b => b
  | .num q => q != 0
  | .str s => s != ""
  | .list l => !l.isEmpty
  | .dict d => !d.isEmpty

/-- Python `float(v)`: numbers pass through, bools become 0/1, strings go
through the (uninterpreted) numeric string parser `sfloat`, and `None`,
lists and dicts raise (`Option.none`). -/
def pyFloat (sfloat : String → Option ℚ) : PyVal → Option ℚ
  | .none => Option.none
  | .bool b => some (if b then 1 else 0)
  | .num q => some q
  | .str s => sfloat s
  | .list _ => Option.none
  | .dict _ => Option.none

/-- The opening brace character, written by code point to keep brace
characters out of literals. -/
def lbrace : Char := Char.ofNat 123

/-- The closing brace character, written by code point. -/
def rbrace : Char := Char.ofNat 125

/-- Index of the last occurrence of `c` in the list, if any (how the greedy
`[\s\S]*` of the regex on pipeline.py line 292 picks its closing brace:
consume everything, back off to the last one). -/
def lastIdxOf (c : Char) : List Char → Option Nat
  | [] => Option.none
  | a :: rest =>
    match lastIdxOf c rest with
    | some j => some (j + 1)
    | Option.none => if a = c then some 0 else Option.none

/-- Index of the first occurrence of `c` in the list, if any. -/
def firstIdxOf (c : Char) : List Char → Option Nat
  | [] => Option.none
  | a :: rest => if a = c then some 0 else (firstIdxOf c rest).map (· + 1)

/-- The regex engine run on pipeline.py line 292: `re.search` tries each
start position left to right; a match must start with an opening brace and
ends, greedily, at the last closing brace strictly after it; with no such
closing brace the engine moves to the next start position. -/
def reSearchBrace : List Char → Option (List Char)
  | [] => Option.none
  | a :: rest =>
    if a = lbrace then
      match lastIdxOf rbrace rest with
      | some j => some (a :: rest.take (j + 1))
      | Option.none => reSearchBrace rest
    else reSearchBrace rest

/-- The spec's description of the same search: the substring from the first
opening brace to the last closing brace, defined directly from those two
indices; no match when either brace is missing or the last closing brace
does not come after the first opening one. -/
def braceSpanSpec (s : List Char) : Option (List Char) :=
  match firstIdxOf lbrace s, lastIdxOf rbrace s with
  | some i, some j => if i < j then some ((s.drop i).take (j - i + 1)) else Option.none
  | _, _ => Option.none

theorem lastIdxOf_cons (c a : Char) (rest : List Char) :
    lastIdxOf c (a :: rest) =
      match lastIdxOf c rest with
      | some j => some (j + 1)
      | Option.none => if a = c then some 0 else Option.none := rfl

/-- The regex search and the first-brace-to-last-brace description agree on
every string. -/
theorem reSearchBrace_eq_spec (s : List Char) :
    reSearchBrace s = braceSpanSpec s := by
  induction s with
  | nil => rfl
  | cons a rest ih =>
    by_cases ha : a = lbrace
    · subst ha
      cases hlast : lastIdxOf rbrace rest with
      | some j =>
        simp only [reSearchBrace, if_pos rfl, hlast, braceSpanSpec, firstIdxOf,
          lastIdxOf_cons]
        have hne : (lbrace = rbrace) = False := by
          simp [lbrace, rbrace, Char.ofNat]
        simp [hlast, hne]
      | none =>
        have hne : (lbrace = rbrace) = False := by
          simp [lbrace, rbrace, Char.ofNat]
        simp only [reSearchBrace, if_pos rfl, hlast] 
        rw [ih]
        simp only [braceSpanSpec, firstIdxOf, lastIdxOf_cons, hlast, hne,
          if_pos rfl, if_false]
        cases hfst : firstIdxOf lbrace rest <;> simp [hfst, hlast]
    · simp only [reSearchBrace, if_neg ha]
      rw [ih]
      simp only [braceSpanSpec, firstIdxOf, lastIdxOf_cons, if_neg ha]
      cases hfst : firstIdxOf lbrace rest with
      | none => simp
      | some i =>
        cases hlast : lastIdxOf rbrace rest with
        | some j =>
          simp only [hlast, Option.map_some]
          by_cases hij : i < j
          · simp [hij, Nat.succ_sub_succ, List.drop, List.take]
          · simp [hij]
        | none =>
          by_cases harb : a = rbrace
          · simp [hlast, harb, Nat.not_lt_zero]
          · simp [hlast, harb]

/-- `RAGPipeline._extract_json_from_text` (pipeline.py lines 277-299), with
`json.loads` left uninterpreted as `loads` (a `none` result is a raised
parse error): try the direct parse; on failure run the regex search and
parse its match; with no match, or a second parse failure, return `none`
(the caller's `or {}` turns that into the empty mapping). -/
def extract_json_from_text (loads : String → Option PyVal) (text : String) :
    Option PyVal :=
  match loads text with
  | some v => some v
  | Option.none =>
    match reSearchBrace text.data with
    | some sub => loads (String.mk sub)
    | Option.none => Option.none

/-- The spec's words for the same parser: attempt the direct parse first;
on failure parse the substring from the first opening brace to the last
closing brace; on failure of both yield nothing (the empty-mapping
fallback). -/
def extract_json_spec (loads : String → Option PyVal) (text : String) :
    Option PyVal :=
  match loads text with
  | some v => some v
  | Option.none =>
    match braceSpanSpec text.data with
    | some sub => loads (String.mk sub)
    | Option.none => Option.none

/-- C5: for every input string (and every behaviour of the JSON parser) the
structured-output extraction of the code equals the spec's description:
direct parse first, then the first-opening-brace-to-last-closing-brace
substring, then the empty fallback, with no other outcome. -/
theorem extract_json_matches_spec (loads : String → Option PyVal)
    (text : String) :
    extract_json_from_text loads text = extract_json_spec loads text := by
  unfold extract_json_from_text extract_json_spec
  rw [reSearchBrace_eq_spec]

/-! ## grade_answer result handling (pipeline.py lines 349-373)

The grading stage takes the raw model output, extracts JSON, and builds
`{score, feedback, confidence, raw}` with defensive coercions.  The
embedding starts at line 349 (`parsed = …extract… or {}`), taking the raw
model output as input; the result is `none` when an uncaught exception
escapes (the only one possible is the `parsed.get("feedback")` call on
line 360, made outside any `try` on a non-dict `parsed`). -/

/-- The grade result dict. -/
structure GradeResult where
  score : ℚ
  feedback : String
  confidence : ℚ
  raw : String
deriving Repr, DecidableEq

/-- Lines 349-373 of pipeline.py: `parsed = extract(…) or {}`; then
`raw_score = float(parsed.get("score", 0.0))` with exceptions caught to
`0.0`; `score = max(0.0, min(1.0, raw_score)) * float(max_score)`;
`feedback = parsed.get("feedback") if isinstance(…, str) else ""` with NO
exception handler; `confidence` like `raw_score` but clamped inside the
`try`; finally the result dict with `raw` the untouched model output. -/
def grade_from_raw (loads : String → Option PyVal) (sfloat : String → Option ℚ)
    (raw_output : String) (max_score : ℚ) : Option GradeResult :=
  let parsed : PyVal :=
    match extract_json_from_text loads raw_output with
    | some v => if pyTruthy v then v else .dict []
    | Option.none => .dict []
  let raw_score : ℚ :=
    match parsed with
    | .dict kvs =>
      match pyFloat sfloat ((kvs.lookup "score").getD (.num 0)) with
      | some q => q
      | Option.none => 0
    | _ => 0
  let score : ℚ := max 0 (min 1 raw_score) * max_score
  match parsed with
  | .dict kvs =>
    let feedback : String :=
      match (kvs.lookup "feedback").getD .none with
      | .str s => s
      | _ => ""
    let confidence : ℚ :=
      match pyFloat sfloat ((kvs.lookup "confidence").getD (.num 0)) with
      | some q => max 0 (min 1 q)
      | Option.none => 0
    some ⟨score, feedback, confidence, raw_output⟩
  | _ => Option.none

/-- C3: the spec asserts the grade's score lies in `[0, max_score]` for
every raw model output.  But when the model output is `"true"` — valid
JSON whose parse is the truthy non-dict `True` — `parsed.get("feedback")`
on pipeline.py line 360 runs outside any `try` and raises
`AttributeError`: `grade_answer` returns no result at all (the `none`
here), for any behaviour of `float` on strings. -/
theorem grade_answer_crashes_on_bool (loads : String → Option PyVal)
    (sfloat : String → Option ℚ)
    (h : loads "true" = some (.bool true)) :
    grade_from_raw loads sfloat "true" 1 = none := by
  unfold grade_from_raw extract_json_from_text
  rw [h]
  rfl

/-- A concrete `json.loads` fragment: exactly the behaviour of
`json.loads` on the literal `"true"`, failure elsewhere. -/
def loadsTrueOnly : String → Option PyVal :=
  fun s => if s = "true" then some (.bool true) else Option.none

/-- A concrete `float(str)` fragment that always fails (never consulted on
the crashing path). -/
def sfloatFailAll : String → Option ℚ := fun _ => Option.none

theorem grade_answer_crashes_on_bool_witness :
    grade_from_raw loadsTrueOnly sfloatFailAll "true" 1 = none :=
  grade_answer_crashes_on_bool loadsTrueOnly sfloatFailAll rfl

/-- C4: when the raw model output contains no parseable JSON object — the
direct parse fails and the brace search finds nothing parseable — the
grade is exactly `score = 0`, `feedback = ""`, `confidence = 0`, with
`raw` the untouched model output, for every `max_score` and every
behaviour of `float` on strings. -/
theorem grade_answer_no_json (loads : String → Option PyVal)
    (sfloat : String → Option ℚ) (text : String) (max_score : ℚ)
    (h : extract_json_from_text loads text = none) :
    grade_from_raw loads sfloat text max_score =
      some ⟨0, "", 0, text⟩ := by
  unfold grade_from_raw
  rw [h]
  simp [pyFloat]

/-- The scenario-D input: `grade_answer` with model output
`"I think this is correct"` (no JSON anywhere) yields the zero grade with
the raw text preserved. -/
theorem grade_answer_no_json_witness :
    grade_from_raw (fun _ => Option.none) sfloatFailAll
      "I think this is correct" 1 = some ⟨0, "", 0, "I think this is correct"⟩ :=
  grade_answer_no_json (fun _ => Option.none) sfloatFailAll
    "I think this is correct" 1 rfl

/-! ## Document store interface and retrieval (pipeline.py lines 41-82)

`RAGPipeline.retrieve_context` calls `search_study_materials` and
`search_questions` on the vector store; either call may raise (ChromaDB
down, telemetry hooks, …).  The store is modelled as an interface whose
two search methods return `Except`: `.error` is a raised exception. -/

/-- String-valued metadata mapping (title/topic/subject/difficulty …). -/
abbrev MetaDict := List (String × String)

/-- One formatted search result (`_format_search_results` shape):
id, content, metadata, distance. -/
structure SearchResult where
  id : String
  content : String
  metadata : MetaDict
  distance : ℚ
deriving Repr, DecidableEq

/-- The vector-store interface as the pipeline consumes it: each search
takes the query text, `top_k` and an optional metadata filter, and either
returns results or raises. -/
structure VStore where
  searchStudyMaterials : String → Nat → Option MetaDict → Except String (List SearchResult)
  searchQuestions : String → Nat → Option MetaDict → Except String (List SearchResult)

/-- The retrieved context dict: materials and reference questions. -/
structure Context where
  materials : List SearchResult
  reference_questions : List SearchResult
deriving Repr, DecidableEq

/-- Line 59 of pipeline.py: `{"subject": subject} if subject else None` —
note the truthiness test, so the empty-string subject also yields no
filter. -/
def whereFilter (subject : Option String) : Option MetaDict :=
  match subject with
  | some s => if s = "" then Option.none else some [("subject", s)]
  | Option.none => Option.none

/-- `RAGPipeline.retrieve_context` (pipeline.py lines 41-82): empty context
when no store is held; otherwise search materials with `top_k` and
questions with `min(3, top_k)`, and on any raised store error return the
empty context (the `except` on line 80). -/
def retrieve_context (vs : Option VStore) (query : String)
    (subject : Option String) (top_k : Nat) : Context :=
  match vs with
  | Option.none => ⟨[], []⟩
  | some st =>
    match st.searchStudyMaterials query top_k (whereFilter subject) with
    | .error _ => ⟨[], []⟩
    | .ok materials =>
      match st.searchQuestions query (min 3 top_k) (whereFilter subject) with
      | .error _ => ⟨[], []⟩
      | .ok questions => ⟨materials, questions⟩

/-- C6: if the store is absent, or either store search raises, retrieval
returns the empty context; no error is ever propagated (the embedding is a
total function into `Context`, exactly because line 80 of pipeline.py
catches every exception). -/
theorem retrieve_context_degrades (vs : VStore) (q : String)
    (subj : Option String) (k : Nat)
    (h : (∃ e, vs.searchStudyMaterials q k (whereFilter subj) = .error e) ∨
         (∃ e, vs.searchQuestions q (min 3 k) (whereFilter subj) = .error e)) :
    retrieve_context (some vs) q subj k = ⟨[], []⟩ ∧
    retrieve_context Option.none q subj k = ⟨[], []⟩ := by
  refine ⟨?_, rfl⟩
  rcases h with ⟨e, he⟩ | ⟨e, he⟩
  · show (match vs.searchStudyMaterials q k (whereFilter subj) with
      | .error _ => (⟨[], []⟩ : Context)
      | .ok materials =>
        match vs.searchQuestions q (min 3 k) (whereFilter subj) with
        | .error _ => (⟨[], []⟩ : Context)
        | .ok questions => ⟨materials, questions⟩) = ⟨[], []⟩
    rw [he]
  · show (match vs.searchStudyMaterials q k (whereFilter subj) with
      | .error _ => (⟨[], []⟩ : Context)
      | .ok materials =>
        match vs.searchQuestions q (min 3 k) (whereFilter subj) with
        | .error _ => (⟨[], []⟩ : Context)
        | .ok questions => ⟨materials, questions⟩) = ⟨[], []⟩
    cases hm : vs.searchStudyMaterials q k (whereFilter subj) with
    | error e2 => rfl
    | ok mats => rw [he]

/-- A store whose materials search always raises (the backend is down). -/
def downStore : VStore :=
  ⟨fun _ _ _ => .error "StoreUnavailable", fun _ _ _ => .ok []⟩

theorem retrieve_context_degrades_witness :
    retrieve_context (some downStore) "q" Option.none 5 = ⟨[], []⟩ ∧
    retrieve_context Option.none "q" Option.none 5 = ⟨[], []⟩ :=
  retrieve_context_degrades downStore "q" Option.none 5
    (Or.inl ⟨"StoreUnavailable", rfl⟩)

/-! ## Context formatting and generation (pipeline.py lines 84-176) -/

/-- `RAGPipeline.format_context_for_prompt` (pipeline.py lines 84-107). -/
def format_context_for_prompt (ctx : Context) : String :=
  let parts1 : List String :=
    if !ctx.materials.isEmpty then
      "=== STUDY MATERIALS ===" ::
        (ctx.materials.map (fun m =>
          ["\nTopic: " ++ ((m.metadata.lookup "topic").getD "N/A"),
           "Content: " ++ pyTake 500 m.content ++ "..."])).flatten
    else []
  let parts2 : List String :=
    if !ctx.reference_questions.isEmpty then
      "\n\n=== REFERENCE QUESTIONS & ANSWERS ===" ::
        ctx.reference_questions.map (fun q => "Q: " ++ pyTake 200 q.content ++ "...")
    else []
  String.intercalate "\n" (parts1 ++ parts2)

/-- `RAGPipeline._generate_fallback_response` (pipeline.py lines 155-176):
a header, then the top 2 materials truncated to 300 characters, or the
fixed sorry-message when there are none; `query` is accepted and unused. -/
def generate_fallback_response (query : String) (ctx : Context) : String :=
  let base := ["Based on available study materials:"]
  let parts1 :=
    if !ctx.materials.isEmpty then
      base ++ (ctx.materials.take 2).map (fun m => "\n" ++ pyTake 300 m.content ++ "...")
    else base
  let parts2 :=
    if ctx.materials.isEmpty then
      parts1 ++
        ["\nSorry, I couldn\x27t find relevant materials to answer your question. ",
         "Please try rephrasing your question or check if the topic is covered in our database."]
    else parts1
  String.intercalate "\n" parts2

/-- The default grading/tutoring system prompt (pipeline.py lines 131-137). -/
def defaultSystemPrompt : String :=
  "You are an expert educational tutor for Iraqi students.\nProvide clear, helpful, and educational responses in both Arabic and English as appropriate.\nFocus on explaining concepts thoroughly and building understanding.\nUse the provided study materials and reference questions to inform your response.\nBe encouraging and supportive.\n\nIMPORTANT: Return the answer in Markdown format. Use headings (##), lists (- or *), code fences (```), and inline code (`...`) where appropriate. Return ONLY the Markdown content (no additional commentary about formatting)."

/-- `RAGPipeline.generate_response` (pipeline.py lines 109-153): with no
model configured, the fallback; otherwise build the prompt and invoke the
model once, falling back on any invocation error. -/
def generate_response (model : Option (String → Except String String))
    (query : String) (ctx : Context) (system_prompt : Option String) : String :=
  match model with
  | Option.none => generate_fallback_response query ctx
  | some gen =>
    let context_text := format_context_for_prompt ctx
    let sp := system_prompt.getD defaultSystemPrompt
    let full_prompt := sp ++ "\n\nCONTEXT FROM STUDY MATERIALS:\n" ++ context_text
      ++ "\n\nSTUDENT QUESTION:\n" ++ query ++ "\n\nRESPONSE:"
    match gen full_prompt with
    | .ok t => t
    | .error _ => generate_fallback_response query ctx

/-- The spec's fallback response (§4.5.1), as a function of the retrieved
materials alone: the top 2 materials each truncated to 300 characters under
the header, or the fixed no-relevant-materials message. -/
def fallback_spec (materials : List SearchResult) : String :=
  if materials.isEmpty then
    "Based on available study materials:\n\nSorry, I couldn\x27t find relevant materials to answer your question. \nPlease try rephrasing your question or check if the topic is covered in our database."
  else
    String.intercalate "\n" ("Based on available study materials:" ::
      (materials.take 2).map (fun m => "\n" ++ pyTake 300 m.content ++ "..."))

/-- C7: with no generative model configured, the response is produced with
nothing to invoke and equals the spec's fallback — a function of the
retrieved materials only (so it ignores the query, the system prompt and
the reference questions): top 2 materials truncated to 300 characters, or
the fixed no-relevant-materials message when the context has none. -/
theorem generate_response_no_model (ctx : Context) (query : String)
    (sp : Option String) :
    generate_response Option.none query ctx sp = fallback_spec ctx.materials := by
  unfold generate_response generate_fallback_response fallback_spec
  cases hm : ctx.materials with
  | nil => rfl
  | cons a l => rfl

/-! ## answer_question (pipeline.py lines 178-212) -/

/-- One entry of the `sources` list:
`{"type": …, "id": …, "title": …}`. -/
structure SourceRef where
  type : String
  id : String
  title : String
deriving Repr, DecidableEq

/-- The `answer_question` result dict. -/
structure AnswerResult where
  query : String
  answer : String
  answer_markdown : String
  sources : List SourceRef
  retrieved_context : Context
deriving Repr, DecidableEq

/-- `RAGPipeline.answer_question` (pipeline.py lines 178-212): retrieve
with `top_k = 5`, generate, then list one source per retrieved material —
`type` fixed, `id` the material's id, `title` from its metadata with
default `"Unknown"`. -/
def answer_question (vs : Option VStore)
    (model : Option (String → Except String String))
    (query : String) (subject : Option String) : AnswerResult :=
  let context := retrieve_context vs query subject 5
  let answer := generate_response model query context Option.none
  { query := query
    answer := answer
    answer_markdown := answer
    sources := context.materials.map (fun m =>
      ⟨"study_material", m.id, (m.metadata.lookup "title").getD "Unknown"⟩)
    retrieved_context := context }

/-- A store whose materials search returns the same id twice (the claim
itself quantifies over retrievals in which "the same id occurs more than
once among retrieved materials"). -/
def dupStore : VStore :=
  ⟨fun _ _ _ => .ok [⟨"m1", "photosynthesis", [("title", "Bio")], 0⟩,
                     ⟨"m1", "photosynthesis", [("title", "Bio")], 0⟩],
   fun _ _ _ => .ok []⟩

/-- C9 counterexample: the spec says `sources` is deduplicated by id ("no
id appears twice even if the same id occurs more than once among retrieved
materials"), but `answer_question` maps one source per retrieved material
with no deduplication: with two retrieved materials of id `"m1"`, the id
appears twice. -/
theorem answer_question_sources_not_dedup :
    ((answer_question (some dupStore) Option.none "q" Option.none).sources.map
      SourceRef.id = ["m1", "m1"]) ∧
    ¬ ((answer_question (some dupStore) Option.none "q" Option.none).sources.map
      SourceRef.id).Nodup := by
  have h : (answer_question (some dupStore) Option.none "q" Option.none).sources.map
      SourceRef.id = ["m1", "m1"] := rfl
  refine ⟨h, ?_⟩
  rw [h]
  decide

/-- C9 amended: `sources` lists the retrieved materials' ids and titles in
retrieval order, one entry per retrieved material (so an id retrieved more
than once appears more than once — no deduplication), each entry tagged
`"study_material"` and the title defaulting to `"Unknown"`. -/
theorem answer_question_sources_in_order (vs : Option VStore)
    (model : Option (String → Except String String))
    (query : String) (subject : Option String) :
    ((answer_question vs model query subject).sources.map SourceRef.id =
      (retrieve_context vs query subject 5).materials.map SearchResult.id) ∧
    ((answer_question vs model query subject).sources.map SourceRef.title =
      (retrieve_context vs query subject 5).materials.map
        (fun m => (m.metadata.lookup "title").getD "Unknown")) ∧
    (∀ s ∈ (answer_question vs model query subject).sources,
      s.type = "study_material") := by
  refine ⟨?_, ?_, ?_⟩
  · simp [answer_question, List.map_map]
  · simp [answer_question, List.map_map]
  · intro s hs
    simp only [answer_question, List.mem_map] at hs
    obtain ⟨m, _, rfl⟩ := hs
    rfl

/-! ## The in-memory fallback store (vector_store.py lines 62-110)

When `chromadb.PersistentClient` fails at construction, `VectorStore`
falls back to `_InMemoryClient` / `_InMemoryCollection`: a plain Python
dict from id to `(document, metadata)`.  Python dicts preserve insertion
order and keep an updated key at its original position, so `_data` is an
association list with unique keys; `upsert` writes each id in place or
appends it. -/

/-- A dict update `d[k] = v` on an insertion-ordered association list: an
existing key keeps its position and gets the new value, a new key is
appended. -/
def dictSet (d : List (String × String × MetaDict)) (k : String)
    (v : String × MetaDict) : List (String × String × MetaDict) :=
  if d.any (fun e => e.1 == k) then
    d.map (fun e => if e.1 = k then (k, v) else e)
  else d ++ [(k, v)]

/-- `_InMemoryCollection`: its `_data` dict. -/
structure InMemCollection where
  data : List (String × String × MetaDict)
deriving Repr, DecidableEq

/-- `_InMemoryCollection.upsert(ids, documents, metadatas)` (vector_store.py
lines 69-71): `for i, _id in enumerate(ids): _data[_id] = (documents[i],
metadatas[i])`. -/
def InMemCollection.upsert (c : InMemCollection) (ids docs : List String)
    (metas : List MetaDict) : InMemCollection :=
  ⟨(ids.zip (docs.zip metas)).foldl (fun d x => dictSet d x.1 x.2) c.data⟩

/-- The chroma-style query result: one inner list per query text (the
collection is always queried with a single text). -/
structure InMemQueryResult where
  ids : List (List String)
  documents : List (List String)
  metadatas : List (List MetaDict)
  distances : List (List ℚ)
deriving Repr, DecidableEq

/-- `_InMemoryCollection.query(query_texts, n_results, where)`
(vector_store.py lines 73-84): "Very naive: return first n_results
entries" — the first `n_results` dict entries in insertion order, each
with distance `0.0`; `query_texts` and `where` are accepted and never
read. -/
def InMemCollection.query (c : InMemCollection) (query_texts : List String)
    (n_results : Nat) (whereF : Option MetaDict) : InMemQueryResult :=
  let entries := c.data.take n_results
  ⟨[entries.map (fun e => e.1)],
   [entries.map (fun e => e.2.1)],
   [entries.map (fun e => e.2.2)],
   [entries.map (fun _ => 0)]⟩

/-- `VectorStore.add_study_material` (vector_store.py lines 123-143) over
the in-memory collection: default the metadata to `{}`, upsert the single
record, return the id.  There is no validation of any kind; the function
cannot fail. -/
def add_study_material (col : InMemCollection) (material_id content : String)
    (metadata : Option MetaDict) : InMemCollection × String :=
  (col.upsert [material_id] [content] [metadata.getD []], material_id)

/-- `VectorStore.add_question` (vector_store.py lines 145-165): identical
shape to `add_study_material`, on the questions collection. -/
def add_question (col : InMemCollection) (question_id content : String)
    (metadata : Option MetaDict) : InMemCollection × String :=
  (col.upsert [question_id] [content] [metadata.getD []], question_id)


/-- A Bool equal to false is not equal to true. -/
theorem ne_true_of_false {b : Bool} (h : b = false) : ¬ b = true := by
  simp [h]

/-- Updating the key `k` in place leaves lookups of any other key
unchanged. -/
theorem find?_map_update_other (d : List (String × String × MetaDict))
    (k : String) (v : String × MetaDict) (k2 : String) (hne : k2 ≠ k) :
    (d.map (fun e => if e.1 = k then (k, v) else e)).find? (fun e => e.1 == k2) =
      d.find? (fun e => e.1 == k2) := by
  induction d with
  | nil => rfl
  | cons a rest ih =>
    by_cases ha : a.1 = k
    · have h1 : (k == k2) = false :=
        beq_eq_false_iff_ne.mpr (fun h => hne h.symm)
      have h2 : (a.1 == k2) = false := by rw [ha]; exact h1
      simp only [List.map_cons, if_pos ha, List.find?_cons, h1, h2]
      exact ih
    · simp only [List.map_cons, if_neg ha, List.find?_cons]
      cases hp : (a.1 == k2) with
      | true => rfl
      | false => exact ih

/-- When `k` occurs among the keys, updating it in place makes its lookup
return the new value. -/
theorem find?_map_update_self (d : List (String × String × MetaDict))
    (k : String) (v : String × MetaDict)
    (h : d.any (fun e => e.1 == k) = true) :
    (d.map (fun e => if e.1 = k then (k, v) else e)).find? (fun e => e.1 == k) =
      some (k, v) := by
  induction d with
  | nil => simp at h
  | cons a rest ih =>
    by_cases ha : a.1 = k
    · have h1 : (k == k) = true := by simp
      simp only [List.map_cons, if_pos ha, List.find?_cons, h1]
    · have hpred : (a.1 == k) = false := beq_eq_false_iff_ne.mpr ha
      rw [List.any_cons, hpred, Bool.false_or] at h
      simp only [List.map_cons, if_neg ha, List.find?_cons, hpred]
      exact ih h

/-- When `k` is absent, appending `(k, v)` makes its lookup return the new
value. -/
theorem find?_append_new (d : List (String × String × MetaDict))
    (k : String) (v : String × MetaDict)
    (h : d.any (fun e => e.1 == k) = false) :
    (d ++ [(k, v)]).find? (fun e => e.1 == k) = some (k, v) := by
  induction d with
  | nil =>
    have h1 : (k == k) = true := by simp
    simp only [List.nil_append, List.find?_cons, h1]
  | cons a rest ih =>
    rw [List.any_cons] at h
    have ha : (a.1 == k) = false := by
      cases hcase : (a.1 == k) with
      | true => rw [hcase] at h; simp at h
      | false => rfl
    have hrest : rest.any (fun e => e.1 == k) = false := by
      rw [ha, Bool.false_or] at h; exact h
    simp only [List.cons_append, List.find?_cons, ha]
    exact ih hrest

/-- Appending `(k, v)` leaves lookups of any other key unchanged. -/
theorem find?_append_single_other (d : List (String × String × MetaDict))
    (k : String) (v : String × MetaDict) (k2 : String) (hne : k2 ≠ k) :
    (d ++ [(k, v)]).find? (fun e => e.1 == k2) =
      d.find? (fun e => e.1 == k2) := by
  induction d with
  | nil =>
    have h1 : (k == k2) = false :=
      beq_eq_false_iff_ne.mpr (fun h => hne h.symm)
    simp only [List.nil_append, List.find?_cons, h1]
  | cons a rest ih =>
    simp only [List.cons_append, List.find?_cons]
    cases hp : (a.1 == k2) with
    | true => rfl
    | false => exact ih

/-- A dict update `d[k] = v` makes the lookup of `k` return `v`. -/
theorem find?_dictSet_self (d : List (String × String × MetaDict))
    (k : String) (v : String × MetaDict) :
    (dictSet d k v).find? (fun e => e.1 == k) = some (k, v) := by
  unfold dictSet
  cases hany : d.any (fun e => e.1 == k) with
  | true =>
    rw [if_pos rfl]
    exact find?_map_update_self d k v hany
  | false =>
    rw [if_neg Bool.false_ne_true]
    exact find?_append_new d k v hany

/-- A dict update `d[k] = v` leaves the lookup of every other key
unchanged. -/
theorem find?_dictSet_other (d : List (String × String × MetaDict))
    (k : String) (v : String × MetaDict) (k2 : String) (hne : k2 ≠ k) :
    (dictSet d k v).find? (fun e => e.1 == k2) =
      d.find? (fun e => e.1 == k2) := by
  unfold dictSet
  cases hany : d.any (fun e => e.1 == k) with
  | true =>
    rw [if_pos rfl]
    exact find?_map_update_other d k v k2 hne
  | false =>
    rw [if_neg Bool.false_ne_true]
    exact find?_append_single_other d k v k2 hne

/-- C8 counterexample: the spec says upsert "fails with `InvalidArgument`"
on an empty id or empty text, but `add_study_material` validates nothing
and cannot fail: with an empty id (and with empty content) it stores the
record and returns the id normally. -/
theorem add_study_material_accepts_empty :
    (add_study_material ⟨[]⟩ "" "hello" Option.none).2 = "" ∧
    (add_study_material ⟨[]⟩ "" "hello" Option.none).1.data =
      [("", "hello", [])] ∧
    (add_study_material ⟨[]⟩ "m7" "" Option.none).2 = "m7" ∧
    (add_study_material ⟨[]⟩ "m7" "" Option.none).1.data = [("m7", "", [])] :=
  ⟨rfl, rfl, rfl, rfl⟩

/-- C8 amended: `upsert(id, text, metadata)` always succeeds — for every
id and text, empty ones included, it returns the id, the record under `id`
becomes `(text, metadata or {})` (inserted or replaced), and every other
id's record is untouched;  no `InvalidArgument` rejection exists. -/
theorem add_study_material_upserts (col : InMemCollection)
    (material_id content : String) (metadata : Option MetaDict) :
    (add_study_material col material_id content metadata).2 = material_id ∧
    ((add_study_material col material_id content metadata).1.data.find?
      (fun e => e.1 == material_id)) =
        some (material_id, content, metadata.getD []) ∧
    (∀ k, k ≠ material_id →
      ((add_study_material col material_id content metadata).1.data.find?
        (fun e => e.1 == k)) = col.data.find? (fun e => e.1 == k)) := by
  refine ⟨rfl, ?_, ?_⟩
  · show (dictSet col.data material_id (content, metadata.getD [])).find?
      (fun e => e.1 == material_id) = some (material_id, content, metadata.getD [])
    exact find?_dictSet_self col.data material_id (content, metadata.getD [])
  · intro k hk
    show (dictSet col.data material_id (content, metadata.getD [])).find?
      (fun e => e.1 == k) = col.data.find? (fun e => e.1 == k)
    exact find?_dictSet_other col.data material_id (content, metadata.getD []) k hk

/-- C10: the in-memory fallback collection's `query` ignores both the
query texts and the `where` filter — any two calls with the same
`n_results` return the same result — and that result is the first
`n_results` records in insertion order (ids, documents and metadatas in
stored order) with every distance `0.0`: in degraded mode results are
neither similarity-ranked nor subject-filtered. -/
theorem inmemory_query_ignores_inputs (c : InMemCollection)
    (q1 q2 : List String) (w1 w2 : Option MetaDict) (n : Nat) :
    c.query q1 n w1 = c.query q2 n w2 ∧
    (c.query q1 n w1).ids = [(c.data.take n).map (fun e => e.1)] ∧
    (c.query q1 n w1).documents = [(c.data.take n).map (fun e => e.2.1)] ∧
    (c.query q1 n w1).metadatas = [(c.data.take n).map (fun e => e.2.2)] ∧
    (c.query q1 n w1).distances = [List.replicate (min n c.data.length) 0] := by
  refine ⟨rfl, rfl, rfl, rfl, ?_⟩
  simp only [InMemCollection.query]
  congr 1
  rw [List.map_const']
  rw [List.length_take]

/-- `RAGPipeline.grade_answer` (pipeline.py lines 301-373) assembled in
full: retrieve context when enabled (line 316-329), build the rubric text
and grading prompt with its fixed grader system prompt (lines 331-344,
braces written as escapes), obtain the raw model output through
`generate_response` (line 347), and hand it to the result handling of
lines 349-373 (`grade_from_raw`).  The claims about grading quantify over
the raw model output, so they are settled on `grade_from_raw`; a model
returning the string `r` corresponds to `model = some (fun _ => .ok r)`
here. -/
def grade_answer (vs : Option VStore)
    (model : Option (String → Except String String))
    (loads : String → Option PyVal) (sfloat : String → Option ℚ)
    (enable_rag_retrieval : Bool)
    (question_text model_answer student_answer : String)
    (subject : Option String) (rubric : Option String) (max_score : ℚ) :
    Option GradeResult :=
  let context : Context :=
    if enable_rag_retrieval && vs.isSome then
      retrieve_context vs question_text subject 3
    else ⟨[], []⟩
  let rubric_text : String :=
    match rubric with
    | some r => if r = "" then "" else "Rubric: " ++ r ++ "\n"
    | Option.none => ""
  let system_prompt :=
    "You are an objective exam grader. Read the model answer and the student answer, and assign a score between 0 and 1, provide a short feedback comment, and an estimated confidence between 0 and 1. Return ONLY a JSON object."
  let grading_prompt :=
    rubric_text ++ "Question: " ++ question_text ++ "\n" ++
    "Model Answer: " ++ model_answer ++ "\n" ++
    "Student Answer: " ++ student_answer ++ "\n\n" ++
    "Respond with a JSON object: \x7b\n  \"score\": 0-1, \"feedback\": \"...\", \"confidence\": 0-1\n\x7d"
  let raw_output := generate_response model grading_prompt context (some system_prompt)
  grade_from_raw loads sfloat raw_output max_score
